import Mathlib

/-! Portfolio page behaviour (`app.js`).

A shallow embedding of the controllers of `app.js` and the properties of the
specification that were checked against them.

Conventions of the embedding:

* a JavaScript string whose length or characters matter (form fields) is its
  list of UTF-16 code units; fixed texts (theme names, error messages) are Lean
  strings;
* `null` is `Option.none`;
* a method that may throw returns an `Except` next to the state it leaves
  behind, so that the effects performed before the throw are kept;
* the browser state a method reads or writes is passed explicitly.
-/

namespace Portfolio

/-! ## Strings -/

/-- A JavaScript string, as its sequence of UTF-16 code units. -/
abbrev JSString := List Nat

/-- UTF-16 code units of one character. -/
def utf16 (c : Char) : List Nat :=
  if c.toNat < 65536 then [c.toNat]
  else [55296 + (c.toNat - 65536) / 1024, 56320 + (c.toNat - 65536) % 1024]

/-- Code units of a Lean string literal. -/
def js (s : String) : JSString := s.toList.flatMap utf16

/-- ECMAScript `WhiteSpace` and `LineTerminator` code units: what `\s` matches
and what `String.prototype.trim` strips. -/
def isWhiteSpace (c : Nat) : Bool :=
  c == 9 || c == 10 || c == 11 || c == 12 || c == 13 || c == 32 || c == 160 ||
  c == 5760 || (8192 ≤ c && c ≤ 8202) || c == 8232 || c == 8233 || c == 8239 ||
  c == 8287 || c == 12288 || c == 65279

/-- `String.prototype.trim`. -/
def trim (s : JSString) : JSString :=
  ((s.dropWhile isWhiteSpace).reverse.dropWhile isWhiteSpace).reverse

/-- JavaScript truthiness of a value that is a string or `null`: `null` and the
empty string are falsy. -/
def truthy : Option JSString → Bool
  | none => false
  | some s => !s.isEmpty

/-! ## Regular expressions

The fragment used by `app.js`: a sequence of character classes, each matched
once or (`+`) one or more times, anchored by `^` and `$`. -/

/-- One item of a pattern: a character class, or a character class under `+`. -/
inductive Atom where
  | one (p : Nat → Bool)
  | many1 (p : Nat → Bool)

/-- `RegExp.prototype.test` for an anchored pattern `^ a₁ a₂ … aₙ $`: greedy
matching with backtracking. -/
def regexTest : List Atom → JSString → Bool
  | [], [] => true
  | [], _ :: _ => false
  | _ :: _, [] => false
  | Atom.one p :: rest, c :: s => p c && regexTest rest s
  | Atom.many1 p :: rest, c :: s =>
      p c && (regexTest (Atom.many1 p :: rest) s || regexTest rest s)

/-- The class `[^\s@]`. -/
def notSpaceAt (c : Nat) : Bool := !(isWhiteSpace c || c == 64)

/-- The literal `@`. -/
def isAt (c : Nat) : Bool := c == 64

/-- The literal `\.`. -/
def isDot (c : Nat) : Bool := c == 46

/-- `/^[^\s@]+@[^\s@]+\.[^\s@]+$/`. -/
def emailRegex : List Atom :=
  [Atom.many1 notSpaceAt, Atom.one isAt, Atom.many1 notSpaceAt, Atom.one isDot,
   Atom.many1 notSpaceAt]

/-! ## Contact form -/

/-- The `data` object built by `handleSubmit`; `FormData.get` gives `null` for
a field that is missing. -/
structure FormSubmission where
  name : Option JSString
  email : Option JSString
  message : Option JSString

/-- A toast appended to `document.body` by `showNotification`. -/
structure Notification where
  message : String
  type : String
deriving DecidableEq, Repr

/-- `ContactForm.isValidEmail`. -/
def isValidEmail (email : JSString) : Bool := regexTest emailRegex email

/-- `ContactForm.showNotification`: the toast is appended to `document.body`
(its later removal is driven by timers). -/
def showNotification (message : String) (type : String) (body : List Notification) :
    List Notification :=
  body ++ [{ message := message, type := type }]

/-- `ContactForm.showErrorMessage`. -/
def showErrorMessage (message : String) (body : List Notification) : List Notification :=
  showNotification message "error" body

/-- The `errors` array of `validateForm` after the three checks. -/
def validateErrors (data : FormSubmission) : List String :=
  let errors : List String := []
  let errors :=
    if !truthy data.name || (trim (data.name.getD [])).length < 2 then
      errors ++ ["Please enter a valid name"]
    else errors
  let errors :=
    if !truthy data.email || !isValidEmail (data.email.getD []) then
      errors ++ ["Please enter a valid email address"]
    else errors
  let errors :=
    if !truthy data.message || (trim (data.message.getD [])).length < 10 then
      errors ++ ["Please enter a message with at least 10 characters"]
    else errors
  errors

/-- `ContactForm.validateForm`: the returned boolean and `document.body`
afterwards. -/
def validateForm (data : FormSubmission) (body : List Notification) :
    Bool × List Notification :=
  let errors := validateErrors data
  if errors.length > 0 then
    (false, showErrorMessage (String.intercalate ", " errors) body)
  else
    (true, body)

/-- Rule "name: trimmed length ≥ 2" of the specification is violated. -/
def nameViolated (data : FormSubmission) : Bool :=
  match data.name with
  | none => true
  | some n => decide ((trim n).length < 2)

/-- Rule "email: matches the pattern" of the specification is violated. -/
def emailViolated (data : FormSubmission) : Bool :=
  match data.email with
  | none => true
  | some e => !isValidEmail e

/-- Rule "message: trimmed length ≥ 10" of the specification is violated. -/
def messageViolated (data : FormSubmission) : Bool :=
  match data.message with
  | none => true
  | some m => decide ((trim m).length < 10)

/-- The three rules of the specification with their messages, in the order
name, email, message. -/
def rules (data : FormSubmission) : List (Bool × String) :=
  [(nameViolated data, "Please enter a valid name"),
   (emailViolated data, "Please enter a valid email address"),
   (messageViolated data, "Please enter a message with at least 10 characters")]

/-- Messages of the violated rules of the specification. -/
def violatedMessages (data : FormSubmission) : List String :=
  ((rules data).filter (fun r => r.1)).map (fun r => r.2)

/-! ## Browser state -/

/-- A value thrown by a JavaScript statement. -/
inductive JSError where
  | typeError (what : String)
  | storageError (what : String)
  | other (what : String)
deriving DecidableEq, Repr

/-- The part of `window.localStorage` used by `app.js`: the value under the key
`theme` (`none` when the key is absent), and whether reads and writes throw
(storage disabled, sandboxed document, quota exceeded). -/
structure Storage where
  getItemThrows : Bool
  setItemThrows : Bool
  theme : Option String
deriving DecidableEq, Repr

/-- The call `localStorage.getItem('theme')`. -/
def Storage.getItem (st : Storage) : Except JSError (Option String) :=
  if st.getItemThrows then Except.error (JSError.storageError "getItem") else Except.ok st.theme

/-- The call `localStorage.setItem('theme', value)`. -/
def Storage.setItem (st : Storage) (value : String) : Except JSError Storage :=
  if st.setItemThrows then Except.error (JSError.storageError "setItem")
  else Except.ok { st with theme := some value }

/-- The element with id `theme-toggle`: the text of its descendant of class
`theme-toggle__icon` (`none` when it has no such descendant) and the number of
click listeners registered on it. -/
structure ToggleElement where
  icon : Option String
  clickListeners : Nat
deriving DecidableEq, Repr

/-- The element matching `.nav`: its class list. -/
structure NavElement where
  classList : List String
deriving DecidableEq, Repr

/-- The document and window state read or written by the theme controller and
the mobile navigation. -/
structure Page where
  /-- Result of `document.getElementById('theme-toggle')`. -/
  themeToggle : Option ToggleElement
  /-- Result of `document.querySelector('.nav')`. -/
  nav : Option NavElement
  /-- Attribute `data-color-scheme` of `document.documentElement`. -/
  colorScheme : Option String
  /-- The object `localStorage`. -/
  storage : Storage
  /-- Value of `window.matchMedia('(prefers-color-scheme: dark)').matches`. -/
  prefersDark : Bool
  /-- Value of `window.innerWidth`. -/
  innerWidth : Int
  /-- Number of `resize` listeners registered on `window`. -/
  resizeListeners : Nat
deriving DecidableEq, Repr

/-! ## Theme toggle -/

/-- Fields of a `ThemeToggle` object. The elements found by the constructor are
held by the object: `clickListeners` counts the listeners on `this.toggle`,
`icon` is `none` when `this.icon` is `null` and otherwise the `textContent` of
the icon element. -/
structure ThemeToggle where
  clickListeners : Nat
  icon : Option String
  currentTheme : String
deriving DecidableEq, Repr

/-- `ThemeToggle.getStoredTheme`: the `try`/`catch` turns a throwing read into
`null`. -/
def getStoredTheme (page : Page) : Option String :=
  match page.storage.getItem with
  | Except.ok v => v
  | Except.error _ => none

/-- `ThemeToggle.getPreferredTheme`; `if (stored)` tests truthiness, so `null`
and the empty string both fall through to the system preference. -/
def getPreferredTheme (page : Page) : String :=
  match getStoredTheme page with
  | some stored =>
      if stored ≠ "" then stored
      else if page.prefersDark then "dark" else "light"
  | none => if page.prefersDark then "dark" else "light"

/-- The glyph written by `setTheme`. -/
def themeGlyph (theme : String) : String :=
  if theme = "dark" then "☀️" else "🌙"

/-- `ThemeToggle.setTheme`: result, object and page afterwards. Writing
`textContent` of a `null` icon throws after the attribute was set; a throwing
`setItem` is caught and ignored. -/
def setTheme (theme : String) (self : ThemeToggle) (page : Page) :
    Except JSError Unit × ThemeToggle × Page :=
  let page := { page with colorScheme := some theme }
  match self.icon with
  | none => (Except.error (JSError.typeError "this.icon is null"), self, page)
  | some _ =>
    let self := { self with icon := some (themeGlyph theme) }
    let self := { self with currentTheme := theme }
    match page.storage.setItem theme with
    | Except.ok st => (Except.ok (), self, { page with storage := st })
    | Except.error _ => (Except.ok (), self, page)

/-- `ThemeToggle.toggleTheme`. -/
def toggleTheme (self : ThemeToggle) (page : Page) :
    Except JSError Unit × ThemeToggle × Page :=
  let newTheme := if self.currentTheme = "dark" then "light" else "dark"
  setTheme newTheme self page

/-- `ThemeToggle.init`. -/
def ThemeToggle.init (self : ThemeToggle) (page : Page) :
    Except JSError Unit × ThemeToggle × Page :=
  match setTheme self.currentTheme self page with
  | (Except.error e, self, page) => (Except.error e, self, page)
  | (Except.ok _, self, page) =>
    (Except.ok (), { self with clickListeners := self.clickListeners + 1 }, page)

/-- The call `new ThemeToggle()`: the constructed object (or the value thrown)
and the page afterwards. `this.toggle.querySelector` throws when no element has
id `theme-toggle`. -/
def ThemeToggle.new (page : Page) : Except JSError ThemeToggle × Page :=
  match page.themeToggle with
  | none => (Except.error (JSError.typeError "this.toggle is null"), page)
  | some toggle =>
    let self : ThemeToggle :=
      { clickListeners := toggle.clickListeners, icon := toggle.icon,
        currentTheme := getPreferredTheme page }
    match ThemeToggle.init self page with
    | (Except.error e, _, page) => (Except.error e, page)
    | (Except.ok _, self, page) => (Except.ok self, page)

/-- State after `n` clicks on the toggle, each running `toggleTheme`. -/
def toggleTimes : Nat → ThemeToggle × Page → ThemeToggle × Page
  | 0, s => s
  | n + 1, s => toggleTimes n (toggleTheme s.1 s.2).2

/-- The controller shows one of the two themes: the icon is non-null,
`currentTheme` is `light` or `dark`, the attribute equals it, and so does the
stored value whenever writes succeed. -/
def ThemeInv (s : ThemeToggle × Page) : Prop :=
  s.1.icon.isSome = true ∧
  (s.1.currentTheme = "light" ∨ s.1.currentTheme = "dark") ∧
  s.2.colorScheme = some s.1.currentTheme ∧
  (s.2.storage.setItemThrows = false → s.2.storage.theme = some s.1.currentTheme)

/-! ## Mobile navigation -/

/-- Fields of a `MobileNavigation` object: `this.nav` (`none` when `null`). -/
structure MobileNavigation where
  nav : Option NavElement
deriving DecidableEq, Repr

/-- `MobileNavigation.handleResize`: reading `classList` of a `null` nav
throws. -/
def MobileNavigation.handleResize (self : MobileNavigation) (page : Page) :
    Except JSError Unit × MobileNavigation × Page :=
  let isMobile := decide (page.innerWidth ≤ 768)
  match self.nav with
  | none => (Except.error (JSError.typeError "this.nav is null"), self, page)
  | some nav =>
    if isMobile then
      let classes :=
        if "nav--mobile" ∈ nav.classList then nav.classList
        else nav.classList ++ ["nav--mobile"]
      (Except.ok (), { self with nav := some { nav with classList := classes } }, page)
    else
      let classes := nav.classList.filter (fun c => c ≠ "nav--mobile")
      (Except.ok (), { self with nav := some { nav with classList := classes } }, page)

/-- The call `new MobileNavigation()`. -/
def MobileNavigation.new (page : Page) : Except JSError MobileNavigation × Page :=
  let self : MobileNavigation := { nav := page.nav }
  match MobileNavigation.handleResize self page with
  | (Except.error e, _, page) => (Except.error e, page)
  | (Except.ok _, self, page) =>
    (Except.ok self, { page with resizeListeners := page.resizeListeners + 1 })

/-! ## Coordinator -/

/-- The controller classes instantiated by `PortfolioApp.initializeComponents`. -/
inductive Kind where
  | themeToggle
  | smoothScroll
  | contactForm
  | scrollAnimations
  | navigationScroll
  | projectInteractions
  | skillInteractions
  | heroParticles
  | mobileNavigation
  | performanceMonitor
deriving DecidableEq, Repr

/-- The methods of `PortfolioApp` called after the constructors. -/
inductive PostSetup where
  | addLoadingAnimation
  | addCustomAnimations
  | handleImageErrors
deriving DecidableEq, Repr

/-- A statement of the `try` block of `initializeComponents`:
`this.components.push(new K())` or `this.m()`. -/
inductive Statement where
  | pushNew (k : Kind)
  | call (m : PostSetup)
deriving DecidableEq, Repr

/-- What the constructors and the post-setup methods do to the browser state
`σ`: each returns an object of type `ι` (or nothing) or throws, and leaves a
browser state behind in both cases. -/
structure Runtime (σ ι : Type) where
  construct : Kind → σ → Except JSError ι × σ
  post : PostSetup → σ → Except JSError Unit × σ

/-- An entry of `this.components`: an object and the class it was built by. -/
structure Component (ι : Type) where
  kind : Kind
  object : ι

/-- State of the application: `this.components`, the browser state, the calls
made to `console.error`, and the statements of the `try` block that were
started, in order. -/
structure AppState (σ ι : Type) where
  components : List (Component ι)
  browser : σ
  errorLog : List (String × JSError)
  started : List Statement

/-- One statement of the `try` block. The argument `new K()` is evaluated before
`push`, so a throwing constructor leaves `this.components` as it was. -/
def exec {σ ι : Type} (rt : Runtime σ ι) (stmt : Statement) (s : AppState σ ι) :
    Except JSError Unit × AppState σ ι :=
  let s := { s with started := s.started ++ [stmt] }
  match stmt with
  | Statement.pushNew k =>
    match rt.construct k s.browser with
    | (Except.ok obj, b) =>
      (Except.ok (),
        { s with browser := b, components := s.components ++ [{ kind := k, object := obj }] })
    | (Except.error e, b) => (Except.error e, { s with browser := b })
  | Statement.call m =>
    match rt.post m s.browser with
    | (Except.ok _, b) => (Except.ok (), { s with browser := b })
    | (Except.error e, b) => (Except.error e, { s with browser := b })

/-- A sequence of statements: the first throw abandons the rest. -/
def execAll {σ ι : Type} (rt : Runtime σ ι) :
    List Statement → AppState σ ι → Except JSError Unit × AppState σ ι
  | [], s => (Except.ok (), s)
  | stmt :: rest, s =>
    match exec rt stmt s with
    | (Except.ok _, s) => execAll rt rest s
    | (Except.error e, s) => (Except.error e, s)

/-- The `try` block of `initializeComponents`, statement by statement. -/
def tryBlock : List Statement :=
  [Statement.pushNew Kind.themeToggle,
   Statement.pushNew Kind.smoothScroll,
   Statement.pushNew Kind.contactForm,
   Statement.pushNew Kind.scrollAnimations,
   Statement.pushNew Kind.navigationScroll,
   Statement.pushNew Kind.projectInteractions,
   Statement.pushNew Kind.skillInteractions,
   Statement.pushNew Kind.heroParticles,
   Statement.pushNew Kind.mobileNavigation,
   Statement.pushNew Kind.performanceMonitor,
   Statement.call PostSetup.addLoadingAnimation,
   Statement.call PostSetup.addCustomAnimations,
   Statement.call PostSetup.handleImageErrors]

/-- `PortfolioApp.initializeComponents`: the `try` block, and the `catch`
clause reporting the thrown value with `console.error`. -/
def initializeComponents {σ ι : Type} (rt : Runtime σ ι) (s : AppState σ ι) :
    Except JSError Unit × AppState σ ι :=
  match execAll rt tryBlock s with
  | (Except.ok _, s) => (Except.ok (), s)
  | (Except.error error, s) =>
    (Except.ok (),
      { s with
        errorLog := s.errorLog ++ [("Error initializing portfolio components:", error)] })

/-- The order of construction named by the specification. -/
def constructionOrder : List Kind :=
  [Kind.themeToggle, Kind.smoothScroll, Kind.contactForm, Kind.scrollAnimations,
   Kind.navigationScroll, Kind.projectInteractions, Kind.skillInteractions,
   Kind.heroParticles, Kind.mobileNavigation, Kind.performanceMonitor]

/-- A runtime on a counter of constructor and method calls in which building
the contact form throws. -/
def sampleRuntime : Runtime Nat Unit :=
  { construct := fun k n =>
      if k = Kind.contactForm then (Except.error (JSError.other "contact form"), n + 1)
      else (Except.ok (), n + 1),
    post := fun _ n => (Except.ok (), n + 1) }

/-- The application state left by the `PortfolioApp` constructor. -/
def freshApp : AppState Nat Unit :=
  { components := [], browser := 0, errorLog := [], started := [] }

/-! ## Hero particles

Numbers are the finite values of JavaScript, as rationals. A sum is the exact
sum rounded to the nearest double, ties to even (IEEE 754 binary64); the
product by `-1`, the comparisons, `Math.max` and `Math.min` are exact. Beyond
the largest double the rounding keeps a finite value where JavaScript gives an
infinity. -/

/-- Exponent of the spacing of the doubles around `q`: in the binade
`2^e ≤ |q| < 2^(e+1)` they are `2^(e-52)` apart, and `2^(-1074)` apart below
the normal range. -/
def spacingExponent (q : ℚ) : ℤ := max (Int.log 2 |q|) (-1022) - 52

/-- Nearest integer, a tie going to the even one. -/
def roundHalfEven (q : ℚ) : ℤ :=
  if q - ⌊q⌋ < 1 / 2 then ⌊q⌋
  else if 1 / 2 < q - ⌊q⌋ then ⌊q⌋ + 1
  else if ⌊q⌋ % 2 = 0 then ⌊q⌋ else ⌊q⌋ + 1

/-- The double nearest to `q`, a tie going to the even significand. -/
def toDouble (q : ℚ) : ℚ :=
  roundHalfEven (q / 2 ^ spacingExponent q) * 2 ^ spacingExponent q

/-- The operator `+` on numbers. -/
def numberAdd (a b : ℚ) : ℚ := toDouble (a + b)

/-- A particle of `HeroParticles.particles`. -/
structure Particle where
  x : ℚ
  y : ℚ
  vx : ℚ
  vy : ℚ
  size : ℚ
  opacity : ℚ
deriving DecidableEq

/-- The dimensions of `this.canvas`. -/
structure Canvas where
  width : ℚ
  height : ℚ
deriving DecidableEq

/-- A filled circle drawn on the canvas. -/
structure Circle where
  x : ℚ
  y : ℚ
  radius : ℚ
  opacity : ℚ
deriving DecidableEq

/-- The update of one particle in `HeroParticles.animate`: move, bounce off the
edges, clamp. -/
def updateParticle (canvas : Canvas) (particle : Particle) : Particle :=
  let particle := { particle with x := numberAdd particle.x particle.vx }
  let particle := { particle with y := numberAdd particle.y particle.vy }
  let particle :=
    if particle.x < 0 ∨ particle.x > canvas.width then
      { particle with vx := particle.vx * -1 }
    else particle
  let particle :=
    if particle.y < 0 ∨ particle.y > canvas.height then
      { particle with vy := particle.vy * -1 }
    else particle
  let particle := { particle with x := max 0 (min canvas.width particle.x) }
  let particle := { particle with y := max 0 (min canvas.height particle.y) }
  particle

/-- One frame of `HeroParticles.animate`: the particles afterwards and the
circles drawn, in order. -/
def animate (canvas : Canvas) (particles : List Particle) : List Particle × List Circle :=
  let particles := particles.map (updateParticle canvas)
  (particles,
    particles.map (fun p => { x := p.x, y := p.y, radius := p.size, opacity := p.opacity }))

/-- Successive frames requested with `requestAnimationFrame`, each run with the
canvas dimensions current at that frame (`resize` may change them in between). -/
def frames : List Canvas → List Particle → List Particle
  | [], particles => particles
  | canvas :: later, particles => frames later (animate canvas particles).1

/-- A particle on the right edge of a 100 by 50 canvas, moving right. -/
def edgeParticle : Particle :=
  { x := 100, y := 10, vx := 1, vy := 0, size := 2, opacity := 1 / 5 }

/-- A canvas 1000 wide and 50 high. -/
def wideCanvas : Canvas := { width := 1000, height := 50 }

/-- A particle on the right edge of `wideCanvas` whose velocity to the right,
`2^(-54)`, is below half the spacing `2^(-43)` of the doubles around 1000. -/
def slowEdgeParticle : Particle :=
  { x := 1000, y := 10, vx := 1 / 2 ^ 54, vy := 0, size := 2, opacity := 1 / 5 }

/-! ## Scroll animations -/

/-- `DOMTokenList.add` with one token: a class list is an ordered set, a token
it already holds is not added again. -/
def classListAdd (classList : List String) (token : String) : List String :=
  if token ∈ classList then classList else classList ++ [token]

/-- An `IntersectionObserverEntry`: its target, an element named by a number,
and `isIntersecting`. -/
structure IntersectionEntry where
  target : Nat
  isIntersecting : Bool
deriving DecidableEq, Repr

/-- What `ScrollAnimations.handleIntersection` reads and writes: the class list
of every element and the targets of `this.observer`. -/
structure ScrollAnimations where
  classList : Nat → List String
  observed : List Nat

/-- The callback that `handleIntersection` runs on each entry. -/
def handleEntry (self : ScrollAnimations) (entry : IntersectionEntry) : ScrollAnimations :=
  if entry.isIntersecting then
    { classList :=
        Function.update self.classList entry.target
          (classListAdd (self.classList entry.target) "animate-on-scroll"),
      observed := self.observed.filter (fun t => t ≠ entry.target) }
  else self

/-- `ScrollAnimations.handleIntersection`. -/
def handleIntersection (self : ScrollAnimations) (entries : List IntersectionEntry) :
    ScrollAnimations :=
  entries.foldl handleEntry self

/-- The batches of entries the observer delivers, one call of
`handleIntersection` each. -/
def deliver (self : ScrollAnimations) (batches : List (List IntersectionEntry)) :
    ScrollAnimations :=
  batches.foldl handleIntersection self

/-- Some entry of the run is intersecting and has `el` as its target. -/
def intersects (el : Nat) (entries : List IntersectionEntry) : Bool :=
  entries.any (fun entry => entry.isIntersecting && entry.target == el)

/-- The entry adds the marker to element `el`: the class list of `el` lacks it
before `handleIntersection` is given the entry and holds it afterwards. -/
def addsMarker (el : Nat) (self : ScrollAnimations) (entry : IntersectionEntry) : Bool :=
  decide ("animate-on-scroll" ∉ self.classList el) &&
    decide ("animate-on-scroll" ∈ (handleIntersection self [entry]).classList el)

/-- Number of entries of a run, given to `handleIntersection` one after the
other, that add the marker to element `el`. -/
def markerAdditions (el : Nat) : ScrollAnimations → List IntersectionEntry → Nat
  | _, [] => 0
  | self, entry :: rest =>
    (if addsMarker el self entry then 1 else 0) +
      markerAdditions el (handleIntersection self [entry]) rest

/-- Three observed elements, none animated yet. -/
def sampleScrollAnimations : ScrollAnimations :=
  { classList := fun _ => ["project__card"], observed := [0, 1, 2] }

/-! ## Smooth scroll -/

/-- The layout metrics of an element read by the click listener. -/
structure LayoutBox where
  offsetTop : Int
  offsetHeight : Int
deriving DecidableEq, Repr

/-- The click event, as far as the listener touches it. -/
structure ClickEvent where
  defaultPrevented : Bool
deriving DecidableEq, Repr

/-- The argument of `window.scrollTo`. -/
structure ScrollToOptions where
  top : Int
  behavior : String
deriving DecidableEq, Repr

/-- The document and window state used by the click listener: the element of
each id (`none` when `getElementById` gives `null`), the element matching
`.nav` (`none` when `querySelector` gives `null`), and the calls of
`window.scrollTo` made so far. -/
structure ScrollDocument where
  getElementById : JSString → Option LayoutBox
  nav : Option LayoutBox
  scrollCalls : List ScrollToOptions

/-- The click listener that `SmoothScroll.init` registers on a link whose
`href` attribute is `href`. -/
def SmoothScroll.clickListener (href : JSString) (e : ClickEvent) (doc : ScrollDocument) :
    Except JSError Unit × ClickEvent × ScrollDocument :=
  let e := { e with defaultPrevented := true }
  let targetId := href.drop 1
  match doc.getElementById targetId with
  | some targetElement =>
    match doc.nav with
    | none => (Except.error (JSError.typeError "document.querySelector('.nav') is null"), e, doc)
    | some nav =>
      let navHeight := nav.offsetHeight
      let targetPosition := targetElement.offsetTop - navHeight - 20
      (Except.ok (), e,
        { doc with
          scrollCalls := doc.scrollCalls ++ [{ top := targetPosition, behavior := "smooth" }] })
  | none => (Except.ok (), e, doc)

/-- A document with a navigation bar 64 high and a section of id `about` at
offset 900. -/
def sampleScrollDocument : ScrollDocument :=
  { getElementById := fun id =>
      if id = js "about" then some { offsetTop := 900, offsetHeight := 400 } else none,
    nav := some { offsetTop := 0, offsetHeight := 64 },
    scrollCalls := [] }

/-- The sample document without an element matching `.nav`. -/
def scrollDocumentWithoutNav : ScrollDocument := { sampleScrollDocument with nav := none }

/-- A batch with three entries for element 1: intersecting, not intersecting,
intersecting again. -/
def repeatedBatch : List IntersectionEntry :=
  [{ target := 1, isIntersecting := true }, { target := 1, isIntersecting := false },
   { target := 1, isIntersecting := true }]

/-! ## Sample pages -/

/-- A page with the toggle, its icon and the navigation bar, an empty
`localStorage` that works, and a light system preference. -/
def samplePage : Page :=
  { themeToggle := some { icon := some "", clickListeners := 0 },
    nav := some { classList := ["nav"] },
    colorScheme := none,
    storage := { getItemThrows := false, setItemThrows := false, theme := none },
    prefersDark := false,
    innerWidth := 1280,
    resizeListeners := 0 }

/-- The sample page with a given value stored under the key `theme`. -/
def pageWithStored (value : String) : Page :=
  { samplePage with storage := { samplePage.storage with theme := some value } }

/-- The sample page with `localStorage` throwing on every access. -/
def pageWithoutStorage : Page :=
  { samplePage with
    storage := { getItemThrows := true, setItemThrows := true, theme := none } }

/-- The sample page without the element of id `theme-toggle`. -/
def pageWithoutToggle : Page := { samplePage with themeToggle := none }

/-- The sample page whose toggle has no `.theme-toggle__icon` descendant. -/
def pageWithoutIcon : Page :=
  { samplePage with themeToggle := some { icon := none, clickListeners := 0 } }

/-- The sample page without an element matching `.nav`. -/
def pageWithoutNav : Page := { samplePage with nav := none }

/-- A constructed controller showing the light theme. -/
def sampleToggle : ThemeToggle :=
  { clickListeners := 1, icon := some "🌙", currentTheme := "light" }

/-! ## Contact form: proofs -/

theorem trim_nil : trim [] = [] := rfl

theorem regexTest_nil_iff (s : JSString) : regexTest [] s = true ↔ s = [] := by
  cases s <;> simp [regexTest]

theorem regexTest_one_iff (p : Nat → Bool) (rest : List Atom) (s : JSString) :
    regexTest (Atom.one p :: rest) s = true ↔
      ∃ c t, s = c :: t ∧ p c = true ∧ regexTest rest t = true := by
  cases s with
  | nil => simp [regexTest]
  | cons c t =>
    simp only [regexTest, Bool.and_eq_true]
    constructor
    · rintro ⟨h1, h2⟩
      exact ⟨c, t, rfl, h1, h2⟩
    · rintro ⟨d, u, heq, h1, h2⟩
      cases heq
      exact ⟨h1, h2⟩

theorem regexTest_many1_split (p : Nat → Bool) (rest : List Atom) (s : JSString)
    (h : regexTest (Atom.many1 p :: rest) s = true) :
    ∃ a t, a ≠ [] ∧ s = a ++ t ∧ (∀ c ∈ a, p c = true) ∧ regexTest rest t = true := by
  induction s with
  | nil => simp [regexTest] at h
  | cons c t ih =>
    simp only [regexTest, Bool.and_eq_true, Bool.or_eq_true] at h
    obtain ⟨hc, hrest⟩ := h
    rcases hrest with hmore | hdone
    · obtain ⟨a, u, _, hs, ha, hu⟩ := ih hmore
      refine ⟨c :: a, u, by simp, by simp [hs], ?_, hu⟩
      intro d hd
      rcases List.mem_cons.mp hd with rfl | hd
      · exact hc
      · exact ha d hd
    · exact ⟨[c], t, by simp, by simp, by simpa using hc, hdone⟩

theorem regexTest_many1_join (p : Nat → Bool) (rest : List Atom) (a t : JSString)
    (hne : a ≠ []) (ha : ∀ c ∈ a, p c = true) (ht : regexTest rest t = true) :
    regexTest (Atom.many1 p :: rest) (a ++ t) = true := by
  induction a with
  | nil => exact absurd rfl hne
  | cons c a ih =>
    have hc : p c = true := ha c (List.mem_cons_self _ _)
    by_cases hnil : a = []
    · subst hnil
      simp [regexTest, hc, ht]
    · have := ih hnil (fun d hd => ha d (List.mem_cons_of_mem _ hd))
      simp [regexTest, hc, this]

/-- The strings accepted by `isValidEmail`: `local@domain.tld` with the three
parts non-empty and free of white space and `@`. -/
theorem isValidEmail_iff (e : JSString) :
    isValidEmail e = true ↔
      ∃ a b c, e = a ++ 64 :: (b ++ 46 :: c) ∧ a ≠ [] ∧ b ≠ [] ∧ c ≠ [] ∧
        (∀ x ∈ a, notSpaceAt x = true) ∧ (∀ x ∈ b, notSpaceAt x = true) ∧
        (∀ x ∈ c, notSpaceAt x = true) := by
  constructor
  · intro h
    obtain ⟨a, t1, ha, rfl, hpa, h1⟩ := regexTest_many1_split _ _ _ h
    obtain ⟨x, t2, rfl, hx, h2⟩ := (regexTest_one_iff _ _ _).mp h1
    obtain ⟨b, t3, hb, rfl, hpb, h3⟩ := regexTest_many1_split _ _ _ h2
    obtain ⟨y, t4, rfl, hy, h4⟩ := (regexTest_one_iff _ _ _).mp h3
    obtain ⟨c, t5, hc, rfl, hpc, h5⟩ := regexTest_many1_split _ _ _ h4
    have h6 : t5 = [] := (regexTest_nil_iff _).mp h5
    subst h6
    have hx64 : x = 64 := by simpa [isAt] using hx
    have hy46 : y = 46 := by simpa [isDot] using hy
    subst hx64 hy46
    exact ⟨a, b, c, by simp, ha, hb, hc, hpa, hpb, hpc⟩
  · rintro ⟨a, b, c, rfl, ha, hb, hc, hpa, hpb, hpc⟩
    unfold isValidEmail emailRegex
    apply regexTest_many1_join _ _ _ _ ha hpa
    rw [regexTest_one_iff]
    refine ⟨64, _, rfl, by decide, ?_⟩
    apply regexTest_many1_join _ _ _ _ hb hpb
    rw [regexTest_one_iff]
    refine ⟨46, _, rfl, by decide, ?_⟩
    have := regexTest_many1_join notSpaceAt [] c [] hc hpc ((regexTest_nil_iff _).mpr rfl)
    simpa using this

theorem notSpaceAt_ne_at {x : Nat} (h : notSpaceAt x = true) : x ≠ 64 := by
  intro hx
  subst hx
  simp [notSpaceAt] at h

theorem notSpaceAt_not_space {x : Nat} (h : notSpaceAt x = true) : isWhiteSpace x = false := by
  simp only [notSpaceAt, Bool.not_eq_true', Bool.or_eq_false_iff] at h
  exact h.1

theorem isValidEmail_nil : isValidEmail [] = false := rfl

/-- A length check preceded by the truthiness guard fails exactly on a present
string whose trimmed length reaches the bound. -/
theorem lengthCheck_false_iff (o : Option JSString) (k : Nat) (hk : 0 < k) :
    (!truthy o || decide ((trim (o.getD [])).length < k)) = false ↔
      ∃ n, o = some n ∧ k ≤ (trim n).length := by
  cases o with
  | none => simp [truthy]
  | some n =>
    cases n with
    | nil => simp [truthy, trim_nil]; omega
    | cons c t => simp [truthy]

theorem emailCheck_false_iff (o : Option JSString) :
    (!truthy o || !isValidEmail (o.getD [])) = false ↔
      ∃ e, o = some e ∧ isValidEmail e = true := by
  cases o with
  | none => simp [truthy]
  | some n =>
    cases n with
    | nil => simp [truthy, isValidEmail_nil]
    | cons c t => simp [truthy]

/-- The `errors` array holds one message per failed check, in source order. -/
theorem validateErrors_eq (data : FormSubmission) :
    validateErrors data =
      (if (!truthy data.name || decide ((trim (data.name.getD [])).length < 2)) = true
        then ["Please enter a valid name"] else []) ++
      ((if (!truthy data.email || !isValidEmail (data.email.getD [])) = true
        then ["Please enter a valid email address"] else []) ++
      (if (!truthy data.message || decide ((trim (data.message.getD [])).length < 10)) = true
        then ["Please enter a message with at least 10 characters"] else [])) := by
  unfold validateErrors
  split_ifs <;> rfl

/-- The three conditions of `validateForm`, read off the `if`s. -/
theorem validateErrors_eq_nil_iff (data : FormSubmission) :
    validateErrors data = [] ↔
      (∃ n, data.name = some n ∧ 2 ≤ (trim n).length) ∧
      (∃ e, data.email = some e ∧ isValidEmail e = true) ∧
      (∃ m, data.message = some m ∧ 10 ≤ (trim m).length) := by
  rw [validateErrors_eq, ← lengthCheck_false_iff _ 2 (by decide), ← emailCheck_false_iff,
    ← lengthCheck_false_iff _ 10 (by decide)]
  generalize (!truthy data.name || decide ((trim (data.name.getD [])).length < 2)) = c1
  generalize (!truthy data.email || !isValidEmail (data.email.getD [])) = c2
  generalize (!truthy data.message || decide ((trim (data.message.getD [])).length < 10)) = c3
  cases c1 <;> cases c2 <;> cases c3 <;> simp

theorem validateForm_fst (data : FormSubmission) (body : List Notification) :
    (validateForm data body).1 = true ↔ validateErrors data = [] := by
  unfold validateForm
  cases h : validateErrors data <;> simp

/-- C1: `validateForm` returns true exactly when the name is present with
trimmed length at least 2, the email is present and accepted by `isValidEmail`,
and the message is present with trimmed length at least 10; it returns true for
the submission `Al` / `a@b.co` / `1234567890`. -/
theorem validateForm_true_iff :
    (∀ (data : FormSubmission) (body : List Notification),
      (validateForm data body).1 = true ↔
        ((∃ n, data.name = some n ∧ 2 ≤ (trim n).length) ∧
         (∃ e, data.email = some e ∧ isValidEmail e = true) ∧
         (∃ m, data.message = some m ∧ 10 ≤ (trim m).length))) ∧
    (∀ body : List Notification,
      (validateForm
        { name := some (js "Al"), email := some (js "a@b.co"),
          message := some (js "1234567890") } body).1 = true) := by
  refine ⟨fun data body => ?_, fun body => ?_⟩
  · rw [validateForm_fst, validateErrors_eq_nil_iff]
  · rw [validateForm_fst]
    decide

theorem lengthCheck_eq (o : Option JSString) (k : Nat) (hk : 0 < k) :
    (!truthy o || decide ((trim (o.getD [])).length < k)) =
      (match o with
       | none => true
       | some n => decide ((trim n).length < k)) := by
  cases o with
  | none => rfl
  | some n =>
    cases n with
    | nil => simpa [truthy, trim_nil] using hk
    | cons c t => simp [truthy]

theorem emailCheck_eq (o : Option JSString) :
    (!truthy o || !isValidEmail (o.getD [])) =
      (match o with
       | none => true
       | some e => !isValidEmail e) := by
  cases o with
  | none => rfl
  | some n =>
    cases n with
    | nil => simp [truthy, isValidEmail_nil]
    | cons c t => simp [truthy]

/-- The `errors` array is the list of messages of the violated rules. -/
theorem validateErrors_eq_violatedMessages (data : FormSubmission) :
    validateErrors data = violatedMessages data := by
  rw [validateErrors_eq, lengthCheck_eq _ 2 (by decide), emailCheck_eq,
    lengthCheck_eq _ 10 (by decide)]
  unfold violatedMessages rules nameViolated emailViolated messageViolated
  generalize (match data.name with
    | none => true
    | some n => decide ((trim n).length < 2)) = c1
  generalize (match data.email with
    | none => true
    | some e => !isValidEmail e) = c2
  generalize (match data.message with
    | none => true
    | some m => decide ((trim m).length < 10)) = c3
  cases c1 <;> cases c2 <;> cases c3 <;> rfl

/-- C2: all three rules are checked; when some rule is violated exactly one
error notification is appended, whose text is the messages of the violated
rules, each once, in the order name, email, message, joined with ", "; when no
rule is violated nothing is appended. The submission `A` / `bad` / `short`
yields the three messages in that order. -/
theorem validateForm_notification :
    (∀ (data : FormSubmission) (body : List Notification),
      (validateForm data body).2 =
        if violatedMessages data = [] then body
        else body ++ [{ message := String.intercalate ", " (violatedMessages data),
                        type := "error" }]) ∧
    (∀ data : FormSubmission,
      ("Please enter a valid name" ∈ violatedMessages data ↔ nameViolated data = true) ∧
      ("Please enter a valid email address" ∈ violatedMessages data ↔
        emailViolated data = true) ∧
      ("Please enter a message with at least 10 characters" ∈ violatedMessages data ↔
        messageViolated data = true) ∧
      (violatedMessages data).Nodup ∧
      List.Sublist (violatedMessages data)
        ["Please enter a valid name", "Please enter a valid email address",
         "Please enter a message with at least 10 characters"]) ∧
    validateForm
        { name := some (js "A"), email := some (js "bad"), message := some (js "short") } [] =
      (false,
        [{ message := "Please enter a valid name, Please enter a valid email address, " ++
                      "Please enter a message with at least 10 characters",
           type := "error" }]) := by
  refine ⟨fun data body => ?_, fun data => ?_, by decide⟩
  · unfold validateForm
    simp only [validateErrors_eq_violatedMessages, showErrorMessage, showNotification]
    cases h : violatedMessages data <;> simp
  · unfold violatedMessages rules
    cases nameViolated data <;> cases emailViolated data <;> cases messageViolated data <;>
      decide

/-- C3: a string accepted by `isValidEmail` contains exactly one `@` (code unit
64), no white-space code unit, and a `.` (code unit 46) at a position after the
`@`. -/
theorem isValidEmail_shape (e : JSString) (h : isValidEmail e = true) :
    e.count 64 = 1 ∧ (∀ c ∈ e, isWhiteSpace c = false) ∧
      ∃ i j : Nat, i < j ∧ e[i]? = some 64 ∧ e[j]? = some 46 := by
  obtain ⟨a, b, c, rfl, _, _, _, ha, hb, hc⟩ := (isValidEmail_iff e).mp h
  have hcount : ∀ l : JSString, (∀ x ∈ l, notSpaceAt x = true) → l.count 64 = 0 := by
    intro l hl
    rw [List.count_eq_zero]
    intro hmem
    exact notSpaceAt_ne_at (hl 64 hmem) rfl
  refine ⟨?_, ?_, a.length, a.length + 1 + b.length, by omega, ?_, ?_⟩
  · simp [List.count_append, List.count_cons, hcount a ha, hcount b hb, hcount c hc]
  · intro x hx
    simp only [List.mem_append, List.mem_cons] at hx
    rcases hx with hx | rfl | hx | rfl | hx
    · exact notSpaceAt_not_space (ha x hx)
    · rfl
    · exact notSpaceAt_not_space (hb x hx)
    · rfl
    · exact notSpaceAt_not_space (hc x hx)
  · rw [List.getElem?_append_right (le_refl _)]
    simp
  · rw [List.getElem?_append_right (by omega)]
    have h1 : a.length + 1 + b.length - a.length = b.length + 1 := by omega
    rw [h1, List.getElem?_cons_succ, List.getElem?_append_right (le_refl _)]
    simp

theorem isValidEmail_shape_witness :
    isValidEmail (js "a@b.co") = true ∧
      ((js "a@b.co").count 64 = 1 ∧ (∀ c ∈ js "a@b.co", isWhiteSpace c = false) ∧
        ∃ i j : Nat, i < j ∧ (js "a@b.co")[i]? = some 64 ∧ (js "a@b.co")[j]? = some 46) :=
  ⟨by decide, isValidEmail_shape (js "a@b.co") (by decide)⟩

/-! ## Theme toggle: proofs -/

/-- With a non-null icon, `setTheme` completes and sets the attribute, the
glyph and `currentTheme`; the stored value changes exactly when `setItem` does
not throw. -/
theorem setTheme_of_icon (theme : String) (self : ThemeToggle) (page : Page)
    (hicon : self.icon.isSome = true) :
    setTheme theme self page =
      (Except.ok (),
        { self with icon := some (themeGlyph theme), currentTheme := theme },
        { page with
          colorScheme := some theme,
          storage :=
            if page.storage.setItemThrows = true then page.storage
            else { page.storage with theme := some theme } }) := by
  obtain ⟨listeners, icon, current⟩ := self
  cases icon with
  | none => simp at hicon
  | some g =>
    cases hthrows : page.storage.setItemThrows <;>
      simp [setTheme, Storage.setItem, hthrows]

theorem toggleTheme_of_icon (self : ThemeToggle) (page : Page)
    (hicon : self.icon.isSome = true) :
    toggleTheme self page =
      (Except.ok (),
        { self with
          icon := some (themeGlyph (if self.currentTheme = "dark" then "light" else "dark")),
          currentTheme := if self.currentTheme = "dark" then "light" else "dark" },
        { page with
          colorScheme := some (if self.currentTheme = "dark" then "light" else "dark"),
          storage :=
            if page.storage.setItemThrows = true then page.storage
            else { page.storage with
                   theme := some (if self.currentTheme = "dark" then "light" else "dark") } }) := by
  unfold toggleTheme
  exact setTheme_of_icon _ self page hicon

/-- C4: on a constructed controller whose theme is `light` or `dark`, one
`toggleTheme` switches to the other theme, and two return `currentTheme`, the
`data-color-scheme` attribute, the glyph and the stored preference to the
values of the original theme: the state after two toggles is the state that
applying the original theme gives, and it is the original state when that
state showed its theme. -/
theorem toggleTheme_twice (self : ThemeToggle) (page : Page)
    (hicon : self.icon.isSome = true)
    (htheme : self.currentTheme = "light" ∨ self.currentTheme = "dark") :
    (toggleTheme self page).1 = Except.ok () ∧
    (toggleTheme self page).2.1.currentTheme =
      (if self.currentTheme = "dark" then "light" else "dark") ∧
    (toggleTheme self page).2.1.currentTheme ≠ self.currentTheme ∧
    (toggleTheme (toggleTheme self page).2.1 (toggleTheme self page).2.2).1 = Except.ok () ∧
    (toggleTheme (toggleTheme self page).2.1 (toggleTheme self page).2.2).2.1.currentTheme =
      self.currentTheme ∧
    (toggleTheme (toggleTheme self page).2.1 (toggleTheme self page).2.2).2.2.colorScheme =
      some self.currentTheme ∧
    (toggleTheme (toggleTheme self page).2.1 (toggleTheme self page).2.2).2.1.icon =
      some (themeGlyph self.currentTheme) ∧
    (toggleTheme (toggleTheme self page).2.1 (toggleTheme self page).2.2).2.2.storage.theme =
      (if page.storage.setItemThrows = true then page.storage.theme
       else some self.currentTheme) ∧
    (toggleTheme (toggleTheme self page).2.1 (toggleTheme self page).2.2).2 =
      (setTheme self.currentTheme self page).2 ∧
    (page.colorScheme = some self.currentTheme →
      self.icon = some (themeGlyph self.currentTheme) →
      (page.storage.setItemThrows = false → page.storage.theme = some self.currentTheme) →
      (toggleTheme (toggleTheme self page).2.1 (toggleTheme self page).2.2).2 = (self, page)) := by
  have h1 := toggleTheme_of_icon self page hicon
  have hicon1 : (toggleTheme self page).2.1.icon.isSome = true := by rw [h1]; rfl
  have h2 :=
    toggleTheme_of_icon (toggleTheme self page).2.1 (toggleTheme self page).2.2 hicon1
  have h0 := setTheme_of_icon self.currentTheme self page hicon
  obtain ⟨listeners, icon, current⟩ := self
  obtain ⟨tg, nav, scheme, ⟨gthrows, sthrows, stored⟩, dark, width, rl⟩ := page
  simp only at htheme hicon
  rw [h2, h0, h1]
  rcases htheme with rfl | rfl <;> cases sthrows <;> simp <;> intros <;> simp_all

theorem toggleTheme_twice_witness :
    (toggleTheme sampleToggle samplePage).1 = Except.ok () ∧
    (toggleTheme sampleToggle samplePage).2.1.currentTheme = "dark" ∧
    (toggleTheme (toggleTheme sampleToggle samplePage).2.1
      (toggleTheme sampleToggle samplePage).2.2).2.1.currentTheme = "light" ∧
    (toggleTheme (toggleTheme sampleToggle samplePage).2.1
      (toggleTheme sampleToggle samplePage).2.2).2.2.storage.theme = some "light" :=
  have h := toggleTheme_twice sampleToggle samplePage (by decide) (Or.inl (by decide))
  ⟨h.1, h.2.1, h.2.2.2.2.1, h.2.2.2.2.2.2.2.1⟩

/-- C5: when every `localStorage` access throws, `getStoredTheme` gives `null`,
and `setTheme` and `toggleTheme` on a constructed controller complete without
raising, setting the attribute, the glyph and `currentTheme` to the new theme
and leaving the storage as it was. -/
theorem theme_without_storage (theme : String) (self : ThemeToggle) (page : Page)
    (hget : page.storage.getItemThrows = true) (hset : page.storage.setItemThrows = true)
    (hicon : self.icon.isSome = true) :
    getStoredTheme page = none ∧
    setTheme theme self page =
      (Except.ok (),
        { self with icon := some (themeGlyph theme), currentTheme := theme },
        { page with colorScheme := some theme }) ∧
    toggleTheme self page =
      (Except.ok (),
        { self with
          icon := some (themeGlyph (if self.currentTheme = "dark" then "light" else "dark")),
          currentTheme := if self.currentTheme = "dark" then "light" else "dark" },
        { page with
          colorScheme := some (if self.currentTheme = "dark" then "light" else "dark") }) := by
  refine ⟨?_, ?_, ?_⟩
  · simp [getStoredTheme, Storage.getItem, hget]
  · rw [setTheme_of_icon theme self page hicon]
    simp [hset]
  · rw [toggleTheme_of_icon self page hicon]
    simp [hset]

theorem theme_without_storage_witness :
    getStoredTheme pageWithoutStorage = none ∧
    setTheme "dark" sampleToggle pageWithoutStorage =
      (Except.ok (),
        { sampleToggle with icon := some (themeGlyph "dark"), currentTheme := "dark" },
        { pageWithoutStorage with colorScheme := some "dark" }) :=
  have h := theme_without_storage "dark" sampleToggle pageWithoutStorage rfl rfl (by decide)
  ⟨h.1, h.2.1⟩

/-- C6, as stated, fails: with the empty string stored under `theme` the stored
value is present but `getPreferredTheme` returns the system preference. -/
theorem getPreferredTheme_stored_empty :
    (pageWithStored "").storage.getItem = Except.ok (some "") ∧
    getStoredTheme (pageWithStored "") = some "" ∧
    getPreferredTheme (pageWithStored "") = "light" ∧
    getPreferredTheme (pageWithStored "") ≠ "" :=
  ⟨rfl, rfl, by decide, by decide⟩

/-- C6, amended: `getPreferredTheme` returns the stored value when storage can
be read and holds a non-empty string under `theme`; when the key is absent, the
stored string is empty or storage is unavailable, it returns `dark` if the
system prefers dark and `light` otherwise. -/
theorem getPreferredTheme_resolution (page : Page) :
    getPreferredTheme page =
      (match (if page.storage.getItemThrows = true then none else page.storage.theme) with
       | some stored =>
           if stored = "" then (if page.prefersDark = true then "dark" else "light")
           else stored
       | none => if page.prefersDark = true then "dark" else "light") := by
  unfold getPreferredTheme getStoredTheme Storage.getItem
  cases hthrows : page.storage.getItemThrows
  · cases hstored : page.storage.theme with
    | none => simp
    | some v => by_cases hv : v = "" <;> simp [hv]
  · simp

/-- C7, as stated, fails: with `blue` stored under `theme`, the constructed
controller has `currentTheme`, the attribute and the stored value all equal to
`blue`. -/
theorem theme_stored_blue :
    ∃ self page,
      ThemeToggle.new (pageWithStored "blue") = (Except.ok self, page) ∧
      self.currentTheme = "blue" ∧ page.colorScheme = some "blue" ∧
      page.storage.theme = some "blue" ∧
      ¬ (self.currentTheme = "light" ∨ self.currentTheme = "dark") :=
  ⟨{ clickListeners := 1, icon := some (themeGlyph "blue"), currentTheme := "blue" },
   { pageWithStored "blue" with colorScheme := some "blue" },
   rfl, rfl, rfl, rfl, by decide⟩

/-- On a page with the toggle and its icon, `new ThemeToggle()` completes: the
object carries the preferred theme, which is applied to the page. -/
theorem ThemeToggle.new_of_icon (page : Page) (toggle : ToggleElement) (glyph : String)
    (htoggle : page.themeToggle = some toggle) (hicon : toggle.icon = some glyph) :
    ThemeToggle.new page =
      (Except.ok
        { clickListeners := toggle.clickListeners + 1,
          icon := some (themeGlyph (getPreferredTheme page)),
          currentTheme := getPreferredTheme page },
        { page with
          colorScheme := some (getPreferredTheme page),
          storage :=
            if page.storage.setItemThrows = true then page.storage
            else { page.storage with theme := some (getPreferredTheme page) } }) := by
  unfold ThemeToggle.new ThemeToggle.init
  simp only [htoggle]
  rw [setTheme_of_icon _ _ _ (by simp [hicon])]
  simp [htoggle]

theorem themeInv_toggleTheme (s : ThemeToggle × Page) (hicon : s.1.icon.isSome = true) :
    ThemeInv (toggleTheme s.1 s.2).2 := by
  rw [toggleTheme_of_icon s.1 s.2 hicon]
  unfold ThemeInv
  refine ⟨rfl, ?_, rfl, ?_⟩
  · by_cases h : s.1.currentTheme = "dark" <;> simp [h]
  · intro hthrows
    have : s.2.storage.setItemThrows = false := by
      by_cases h : s.2.storage.setItemThrows = true
      · simp [h] at hthrows
      · simpa using h
    simp [this]

theorem themeInv_toggleTimes (n : Nat) (s : ThemeToggle × Page) (h : ThemeInv s) :
    ThemeInv (toggleTimes n s) := by
  induction n generalizing s with
  | zero => exact h
  | succ n ih => exact ih _ (themeInv_toggleTheme s h.1)

theorem themeInv_toggleTimes_pos (n : Nat) (s : ThemeToggle × Page)
    (hicon : s.1.icon.isSome = true) (hn : 1 ≤ n) : ThemeInv (toggleTimes n s) := by
  cases n with
  | zero => omega
  | succ n => exact themeInv_toggleTimes n _ (themeInv_toggleTheme s hicon)

theorem getPreferredTheme_light_or_dark (page : Page)
    (h : getStoredTheme page = none ∨ getStoredTheme page = some "" ∨
      getStoredTheme page = some "light" ∨ getStoredTheme page = some "dark") :
    getPreferredTheme page = "light" ∨ getPreferredTheme page = "dark" := by
  unfold getPreferredTheme
  rcases h with h | h | h | h <;> rw [h] <;> cases page.prefersDark <;> simp

/-- C7, amended: on a page with the toggle and its icon, when the value read
from storage under `theme` is absent, empty, unreadable, `light` or `dark`,
then after construction and any number of toggles `currentTheme` is `light` or
`dark`, the attribute equals it and so does the value written to storage; for
any other stored value the same holds once the toggle was clicked at least
once. Every toggle completes without raising. -/
theorem theme_light_or_dark (page : Page) (toggle : ToggleElement) (glyph : String) (n : Nat)
    (htoggle : page.themeToggle = some toggle) (hicon : toggle.icon = some glyph)
    (hinit : 1 ≤ n ∨ getStoredTheme page = none ∨ getStoredTheme page = some "" ∨
      getStoredTheme page = some "light" ∨ getStoredTheme page = some "dark") :
    ∃ self page',
      ThemeToggle.new page = (Except.ok self, page') ∧
      ((toggleTimes n (self, page')).1.currentTheme = "light" ∨
        (toggleTimes n (self, page')).1.currentTheme = "dark") ∧
      (toggleTimes n (self, page')).2.colorScheme =
        some (toggleTimes n (self, page')).1.currentTheme ∧
      ((toggleTimes n (self, page')).2.storage.setItemThrows = false →
        (toggleTimes n (self, page')).2.storage.theme =
          some (toggleTimes n (self, page')).1.currentTheme) ∧
      (toggleTheme (toggleTimes n (self, page')).1 (toggleTimes n (self, page')).2).1 =
        Except.ok () := by
  refine ⟨_, _, ThemeToggle.new_of_icon page toggle glyph htoggle hicon, ?_⟩
  have hinv : ThemeInv (toggleTimes n
      (({ clickListeners := toggle.clickListeners + 1,
          icon := some (themeGlyph (getPreferredTheme page)),
          currentTheme := getPreferredTheme page } : ThemeToggle),
        ({ page with
          colorScheme := some (getPreferredTheme page),
          storage :=
            if page.storage.setItemThrows = true then page.storage
            else { page.storage with theme := some (getPreferredTheme page) } } : Page))) := by
    rcases hinit with hn | hstored
    · exact themeInv_toggleTimes_pos n _ rfl hn
    · apply themeInv_toggleTimes
      refine ⟨rfl, getPreferredTheme_light_or_dark page hstored, rfl, ?_⟩
      intro hthrows
      have : page.storage.setItemThrows = false := by
        by_cases h : page.storage.setItemThrows = true
        · simp [h] at hthrows
        · simpa using h
      simp [this]
  refine ⟨hinv.2.1, hinv.2.2.1, hinv.2.2.2, ?_⟩
  rw [toggleTheme_of_icon _ _ hinv.1]

theorem theme_light_or_dark_witness :
    ∃ self page',
      ThemeToggle.new (pageWithStored "blue") = (Except.ok self, page') ∧
      ((toggleTimes 1 (self, page')).1.currentTheme = "light" ∨
        (toggleTimes 1 (self, page')).1.currentTheme = "dark") ∧
      (toggleTimes 1 (self, page')).2.colorScheme =
        some (toggleTimes 1 (self, page')).1.currentTheme ∧
      ((toggleTimes 1 (self, page')).2.storage.setItemThrows = false →
        (toggleTimes 1 (self, page')).2.storage.theme =
          some (toggleTimes 1 (self, page')).1.currentTheme) ∧
      (toggleTheme (toggleTimes 1 (self, page')).1 (toggleTimes 1 (self, page')).2).1 =
        Except.ok () :=
  theme_light_or_dark (pageWithStored "blue") { icon := some "", clickListeners := 0 } "" 1
    rfl rfl (Or.inl (le_refl 1))

/-- C8 fails on the code: on a page without the element of id `theme-toggle`
the call `new ThemeToggle()` throws; without the icon it throws after it has
set the `data-color-scheme` attribute; on a page without an element matching
`.nav` the call `new MobileNavigation()` throws. -/
theorem missing_target_throws :
    ThemeToggle.new pageWithoutToggle =
      (Except.error (JSError.typeError "this.toggle is null"), pageWithoutToggle) ∧
    ThemeToggle.new pageWithoutIcon =
      (Except.error (JSError.typeError "this.icon is null"),
        { pageWithoutIcon with colorScheme := some "light" }) ∧
    MobileNavigation.new pageWithoutNav =
      (Except.error (JSError.typeError "this.nav is null"), pageWithoutNav) :=
  ⟨rfl, rfl, rfl⟩

/-! ## Coordinator: proofs -/

theorem tryBlock_eq :
    tryBlock =
      constructionOrder.map Statement.pushNew ++
        [Statement.call PostSetup.addLoadingAnimation,
         Statement.call PostSetup.addCustomAnimations,
         Statement.call PostSetup.handleImageErrors] := rfl

theorem execAll_append {σ ι : Type} (rt : Runtime σ ι) (first rest : List Statement)
    (s : AppState σ ι) :
    execAll rt (first ++ rest) s =
      (match execAll rt first s with
       | (Except.ok _, s1) => execAll rt rest s1
       | (Except.error e, s1) => (Except.error e, s1)) := by
  induction first generalizing s with
  | nil => rfl
  | cons stmt more ih =>
    simp only [List.cons_append, execAll]
    rcases h : exec rt stmt s with ⟨_ | _, s1⟩
    · rfl
    · exact ih s1

/-- A run of constructors that all complete appends one component per
constructor, in order, and leaves the error log alone. -/
theorem execAll_pushNew_ok {σ ι : Type} (rt : Runtime σ ι) (kinds : List Kind)
    (s s1 : AppState σ ι)
    (h : execAll rt (kinds.map Statement.pushNew) s = (Except.ok (), s1)) :
    s1.errorLog = s.errorLog ∧
    s1.started = s.started ++ kinds.map Statement.pushNew ∧
    ∃ built : List (Component ι),
      s1.components = s.components ++ built ∧ built.map Component.kind = kinds := by
  induction kinds generalizing s with
  | nil =>
    simp only [List.map_nil, execAll, Prod.mk.injEq, true_and] at h
    subst h
    exact ⟨rfl, by simp, [], by simp, rfl⟩
  | cons k more ih =>
    simp only [List.map_cons, execAll, exec] at h
    rcases hc : rt.construct k s.browser with ⟨e | obj, b⟩
    · simp [hc] at h
    · simp only [hc] at h
      obtain ⟨hlog, hstarted, built, hbuilt, hkinds⟩ := ih _ h
      refine ⟨hlog, ?_, { kind := k, object := obj } :: built, ?_, ?_⟩
      · simpa using hstarted
      · simpa using hbuilt
      · simp [hkinds]

theorem initializeComponents_ok {σ ι : Type} (rt : Runtime σ ι) (s : AppState σ ι) :
    (initializeComponents rt s).1 = Except.ok () := by
  unfold initializeComponents
  rcases execAll rt tryBlock s with ⟨_ | _, s1⟩ <;> rfl

/-- C9: `initializeComponents` never raises, whatever the constructors and the
post-setup methods do; and when the constructors before position `k` of the
fixed order complete and the one at position `k` throws `e`, the components
are those held before followed by one object per completed constructor, in
that order, the statements started are exactly the first `k + 1` constructor
calls (no later constructor, no post-setup method), the browser state is the
one the throwing constructor left, and `e` is logged once. -/
theorem initializeComponents_error_boundary :
    (∀ (σ ι : Type) (rt : Runtime σ ι) (s : AppState σ ι),
      (initializeComponents rt s).1 = Except.ok ()) ∧
    (∀ (σ ι : Type) (rt : Runtime σ ι) (s s1 : AppState σ ι) (k : Nat) (e : JSError) (b : σ)
      (hk : k < constructionOrder.length),
      execAll rt ((constructionOrder.take k).map Statement.pushNew) s = (Except.ok (), s1) →
      rt.construct (constructionOrder.get ⟨k, hk⟩) s1.browser = (Except.error e, b) →
      initializeComponents rt s =
        (Except.ok (),
          { components := s1.components,
            browser := b,
            errorLog := s.errorLog ++ [("Error initializing portfolio components:", e)],
            started :=
              s.started ++ (constructionOrder.take (k + 1)).map Statement.pushNew }) ∧
      ∃ built : List (Component ι),
        s1.components = s.components ++ built ∧
        built.map Component.kind = constructionOrder.take k ∧ built.length = k) := by
  refine ⟨fun σ ι rt s => initializeComponents_ok rt s, ?_⟩
  intro σ ι rt s s1 k e b hk hbefore hthrow
  obtain ⟨hlog, hstarted, built, hbuilt, hkinds⟩ := execAll_pushNew_ok rt _ s s1 hbefore
  have hlen : built.length = k := by
    have := congrArg List.length hkinds
    simpa [List.length_take, Nat.min_eq_left (Nat.le_of_lt hk)] using this
  refine ⟨?_, built, hbuilt, hkinds, hlen⟩
  have hsplit : constructionOrder =
      constructionOrder.take k ++
        constructionOrder.get ⟨k, hk⟩ :: constructionOrder.drop (k + 1) := by
    rw [List.get_eq_getElem, ← List.drop_eq_getElem_cons hk, List.take_append_drop]
  have htake : constructionOrder.take (k + 1) =
      constructionOrder.take k ++ [constructionOrder.get ⟨k, hk⟩] := by
    rw [List.take_succ, List.get_eq_getElem, List.getElem?_eq_getElem hk]
    rfl
  unfold initializeComponents
  rw [tryBlock_eq, htake]
  conv_lhs => rw [hsplit]
  simp only [List.map_append, List.map_cons, List.append_assoc, List.cons_append,
    execAll_append, hbefore, execAll, exec, hthrow, hlog, hstarted, List.map_nil,
    List.nil_append]

theorem initializeComponents_error_boundary_witness :
    initializeComponents sampleRuntime freshApp =
      (Except.ok (),
        { components :=
            [{ kind := Kind.themeToggle, object := () },
             { kind := Kind.smoothScroll, object := () }],
          browser := 3,
          errorLog :=
            [("Error initializing portfolio components:", JSError.other "contact form")],
          started :=
            [Statement.pushNew Kind.themeToggle, Statement.pushNew Kind.smoothScroll,
             Statement.pushNew Kind.contactForm] }) :=
  (initializeComponents_error_boundary.2 Nat Unit sampleRuntime freshApp
    { components :=
        [{ kind := Kind.themeToggle, object := () },
         { kind := Kind.smoothScroll, object := () }],
      browser := 2,
      errorLog := [],
      started := [Statement.pushNew Kind.themeToggle, Statement.pushNew Kind.smoothScroll] }
    2 (JSError.other "contact form") 3 (by decide) rfl rfl).1

/-! ## Hero particles: proofs -/

theorem updateParticle_x (canvas : Canvas) (p : Particle) :
    (updateParticle canvas p).x = max 0 (min canvas.width (numberAdd p.x p.vx)) := by
  unfold updateParticle
  dsimp only
  split_ifs <;> rfl

theorem updateParticle_y (canvas : Canvas) (p : Particle) :
    (updateParticle canvas p).y = max 0 (min canvas.height (numberAdd p.y p.vy)) := by
  unfold updateParticle
  dsimp only
  split_ifs <;> rfl

theorem clamp_bounds (bound value : ℚ) (h : 0 ≤ bound) :
    0 ≤ max 0 (min bound value) ∧ max 0 (min bound value) ≤ bound :=
  ⟨le_max_left _ _, max_le h (min_le_left _ _)⟩

theorem updateParticle_bounds (canvas : Canvas) (p : Particle)
    (hw : 0 ≤ canvas.width) (hh : 0 ≤ canvas.height) :
    0 ≤ (updateParticle canvas p).x ∧ (updateParticle canvas p).x ≤ canvas.width ∧
      0 ≤ (updateParticle canvas p).y ∧ (updateParticle canvas p).y ≤ canvas.height := by
  rw [updateParticle_x, updateParticle_y]
  exact ⟨(clamp_bounds _ _ hw).1, (clamp_bounds _ _ hw).2, (clamp_bounds _ _ hh).1,
    (clamp_bounds _ _ hh).2⟩

theorem frames_append_last (earlier : List Canvas) (canvas : Canvas)
    (particles : List Particle) :
    frames (earlier ++ [canvas]) particles = (animate canvas (frames earlier particles)).1 := by
  induction earlier generalizing particles with
  | nil => rfl
  | cons c cs ih => simpa [frames] using ih (animate c particles).1

theorem frames_length (all : List Canvas) (particles : List Particle) :
    (frames all particles).length = particles.length := by
  induction all generalizing particles with
  | nil => rfl
  | cons c cs ih =>
    rw [frames, ih]
    simp [animate]

/-- C10: on a canvas of width and height at least 0, one update step puts a
particle, whatever its position and velocity, at `0 ≤ x ≤ width` and
`0 ≤ y ≤ height`; so do a frame for every particle and any run of frames that
ends on such a canvas, and a frame keeps the number of particles. -/
theorem particles_stay_in_bounds (canvas : Canvas) (earlier : List Canvas)
    (particles : List Particle) (p : Particle)
    (hw : 0 ≤ canvas.width) (hh : 0 ≤ canvas.height) :
    (0 ≤ (updateParticle canvas p).x ∧ (updateParticle canvas p).x ≤ canvas.width ∧
      0 ≤ (updateParticle canvas p).y ∧ (updateParticle canvas p).y ≤ canvas.height) ∧
    (∀ q ∈ (animate canvas particles).1,
      0 ≤ q.x ∧ q.x ≤ canvas.width ∧ 0 ≤ q.y ∧ q.y ≤ canvas.height) ∧
    (∀ q ∈ frames (earlier ++ [canvas]) particles,
      0 ≤ q.x ∧ q.x ≤ canvas.width ∧ 0 ≤ q.y ∧ q.y ≤ canvas.height) ∧
    (animate canvas particles).1.length = particles.length ∧
    (frames (earlier ++ [canvas]) particles).length = particles.length := by
  have hframe : ∀ ps : List Particle, ∀ q ∈ (animate canvas ps).1,
      0 ≤ q.x ∧ q.x ≤ canvas.width ∧ 0 ≤ q.y ∧ q.y ≤ canvas.height := by
    intro ps q hq
    simp only [animate, List.mem_map] at hq
    obtain ⟨p0, _, rfl⟩ := hq
    exact updateParticle_bounds canvas p0 hw hh
  refine ⟨updateParticle_bounds canvas p hw hh, hframe particles, ?_, ?_, frames_length _ _⟩
  · rw [frames_append_last]
    exact hframe _
  · simp [animate]

theorem particles_stay_in_bounds_witness :
    (updateParticle { width := 100, height := 50 } edgeParticle).x ≤ 100 ∧
    (frames ([{ width := 300, height := 200 }] ++ [{ width := 100, height := 50 }])
      [edgeParticle]).length = 1 :=
  have h := particles_stay_in_bounds { width := 100, height := 50 }
    [{ width := 300, height := 200 }] [edgeParticle] edgeParticle
    (by norm_num) (by norm_num)
  ⟨h.1.2.1, h.2.2.2.2⟩

/-- The spacing exponent of a number of known binade in the normal range. -/
theorem spacingExponent_eq (q : ℚ) (e : ℤ) (hq : 0 < |q|) (hlo : (2 : ℚ) ^ e ≤ |q|)
    (hhi : |q| < (2 : ℚ) ^ (e + 1)) (he : -1022 ≤ e) : spacingExponent q = e - 52 := by
  have h1 : e ≤ Int.log 2 |q| :=
    (Int.zpow_le_iff_le_log (by norm_num) hq).mp (by exact_mod_cast hlo)
  have h2 : Int.log 2 |q| < e + 1 :=
    (Int.lt_zpow_iff_log_lt (by norm_num) hq).mp (by exact_mod_cast hhi)
  have h3 : Int.log 2 |q| = e := by omega
  unfold spacingExponent
  rw [h3, max_eq_left he]

/-- A number less than half above an integer rounds to that integer. -/
theorem roundHalfEven_eq (q : ℚ) (n : ℤ) (hlo : (n : ℚ) ≤ q) (hhi : q < n + 1 / 2) :
    roundHalfEven q = n := by
  have hf : ⌊q⌋ = n := by
    rw [Int.floor_eq_iff]
    exact ⟨hlo, by linarith⟩
  unfold roundHalfEven
  rw [hf, if_pos (by linarith)]

/-- In doubles, `1000 + 2^(-54)` is `1000`: the sum lies in the binade of
`2^9`, where doubles are `2^(-43)` apart. -/
theorem numberAdd_absorbed : numberAdd 1000 (1 / 2 ^ 54) = 1000 := by
  unfold numberAdd toDouble
  have hs : spacingExponent (1000 + 1 / 2 ^ 54) = 9 - 52 := by
    apply spacingExponent_eq
    · norm_num
    · rw [abs_of_pos (by norm_num)]; norm_num
    · rw [abs_of_pos (by norm_num)]; norm_num
    · norm_num
  rw [hs, roundHalfEven_eq _ 8796093022208000 (by norm_num) (by norm_num)]
  norm_num

/-- In doubles, `100 + 1` is `101`. -/
theorem numberAdd_hundred_one : numberAdd 100 1 = 101 := by
  unfold numberAdd toDouble
  have hs : spacingExponent (100 + 1) = 6 - 52 := by
    apply spacingExponent_eq
    · norm_num
    · rw [abs_of_pos (by norm_num)]; norm_num
    · rw [abs_of_pos (by norm_num)]; norm_num
    · norm_num
  rw [hs, roundHalfEven_eq _ 7107243161944064 (by norm_num) (by norm_num)]
  norm_num

theorem updateParticle_vx (canvas : Canvas) (p : Particle) :
    (updateParticle canvas p).vx =
      (if numberAdd p.x p.vx < 0 ∨ canvas.width < numberAdd p.x p.vx then -p.vx
       else p.vx) := by
  unfold updateParticle
  dsimp only
  split_ifs <;> simp_all

theorem updateParticle_vy (canvas : Canvas) (p : Particle) :
    (updateParticle canvas p).vy =
      (if numberAdd p.y p.vy < 0 ∨ canvas.height < numberAdd p.y p.vy then -p.vy
       else p.vy) := by
  unfold updateParticle
  dsimp only
  split_ifs <;> simp_all

/-- C11, as stated, fails: on the right edge of a canvas 1000 wide, a velocity
of `2^(-54)` to the right is rounded away in `x + vx`, the advanced position
equals the width, and the particle ends the step with `vx`, not `-vx`. -/
theorem slow_particle_keeps_velocity :
    slowEdgeParticle.x = wideCanvas.width ∧ 0 < slowEdgeParticle.vx ∧
    numberAdd slowEdgeParticle.x slowEdgeParticle.vx = wideCanvas.width ∧
    (updateParticle wideCanvas slowEdgeParticle).vx = slowEdgeParticle.vx ∧
    (updateParticle wideCanvas slowEdgeParticle).vx ≠ -slowEdgeParticle.vx := by
  have hsum : numberAdd slowEdgeParticle.x slowEdgeParticle.vx = 1000 := numberAdd_absorbed
  have hvx : (updateParticle wideCanvas slowEdgeParticle).vx = slowEdgeParticle.vx := by
    rw [updateParticle_vx, hsum]
    simp [wideCanvas]
  refine ⟨rfl, ?_, hsum, hvx, ?_⟩
  · simp [slowEdgeParticle]
  · rw [hvx]
    show ((1 : ℚ) / 2 ^ 54) ≠ -(1 / 2 ^ 54)
    norm_num

/-- C11, amended: one update step negates `vx` exactly when the advanced
position, the double sum of `x` and `vx`, is below 0 or above the width, and
leaves it unchanged otherwise, likewise `vy` with the height, so the magnitude
of each component is preserved; a particle with `x = width` whose advanced
position is above the width ends the step with velocity `-vx` and
`x = width`. -/
theorem velocity_flip :
    (∀ (canvas : Canvas) (p : Particle),
      (updateParticle canvas p).vx =
        (if numberAdd p.x p.vx < 0 ∨ canvas.width < numberAdd p.x p.vx then -p.vx
         else p.vx) ∧
      (updateParticle canvas p).vy =
        (if numberAdd p.y p.vy < 0 ∨ canvas.height < numberAdd p.y p.vy then -p.vy
         else p.vy) ∧
      |(updateParticle canvas p).vx| = |p.vx| ∧
      |(updateParticle canvas p).vy| = |p.vy|) ∧
    (∀ (canvas : Canvas) (p : Particle),
      p.x = canvas.width → 0 ≤ canvas.width → canvas.width < numberAdd p.x p.vx →
      (updateParticle canvas p).vx = -p.vx ∧ (updateParticle canvas p).x = canvas.width) := by
  constructor
  · intro canvas p
    refine ⟨updateParticle_vx canvas p, updateParticle_vy canvas p, ?_, ?_⟩
    · rw [updateParticle_vx]
      split_ifs
      · exact abs_neg _
      · rfl
    · rw [updateParticle_vy]
      split_ifs
      · exact abs_neg _
      · rfl
  · intro canvas p _ hwidth hcross
    constructor
    · rw [updateParticle_vx, if_pos (Or.inr hcross)]
    · rw [updateParticle_x, min_eq_left (le_of_lt hcross), max_eq_right hwidth]

theorem velocity_flip_witness :
    (updateParticle { width := 100, height := 50 } edgeParticle).vx = -1 ∧
    (updateParticle { width := 100, height := 50 } edgeParticle).x = 100 :=
  velocity_flip.2 { width := 100, height := 50 } edgeParticle rfl
    (show (0 : ℚ) ≤ 100 by norm_num)
    (show (100 : ℚ) < numberAdd 100 1 by rw [numberAdd_hundred_one]; norm_num)

/-! ## Scroll animations: proofs -/

/-- Once an element holds the marker, no entry changes its class list. -/
theorem handleEntry_classList_of_mem (self : ScrollAnimations) (entry : IntersectionEntry)
    (el : Nat) (h : "animate-on-scroll" ∈ self.classList el) :
    (handleEntry self entry).classList el = self.classList el := by
  unfold handleEntry
  split_ifs
  · by_cases ht : el = entry.target
    · subst ht
      simp [classListAdd, h]
    · simp [Function.update_noteq ht]
  · rfl

theorem handleEntry_not_observed (self : ScrollAnimations) (entry : IntersectionEntry)
    (el : Nat) (h : el ∉ self.observed) : el ∉ (handleEntry self entry).observed := by
  unfold handleEntry
  split_ifs
  · intro hmem
    exact h (List.mem_filter.mp hmem).1
  · exact h

theorem handleIntersection_of_mem (self : ScrollAnimations) (entries : List IntersectionEntry)
    (el : Nat) (h : "animate-on-scroll" ∈ self.classList el) :
    (handleIntersection self entries).classList el = self.classList el := by
  induction entries generalizing self with
  | nil => rfl
  | cons entry rest ih =>
    have hstep := handleEntry_classList_of_mem self entry el h
    have := ih (handleEntry self entry) (by rw [hstep]; exact h)
    simpa [handleIntersection, hstep] using this

theorem handleIntersection_not_observed (self : ScrollAnimations)
    (entries : List IntersectionEntry) (el : Nat) (h : el ∉ self.observed) :
    el ∉ (handleIntersection self entries).observed := by
  induction entries generalizing self with
  | nil => exact h
  | cons entry rest ih =>
    exact ih (handleEntry self entry) (handleEntry_not_observed self entry el h)

theorem deliver_eq_flatten (self : ScrollAnimations) (batches : List (List IntersectionEntry)) :
    deliver self batches = handleIntersection self batches.flatten := by
  unfold deliver handleIntersection
  rw [List.foldl_flatten]

theorem handleIntersection_singleton (self : ScrollAnimations) (entry : IntersectionEntry) :
    handleIntersection self [entry] = handleEntry self entry := rfl

theorem handleIntersection_cons (self : ScrollAnimations) (entry : IntersectionEntry)
    (rest : List IntersectionEntry) :
    handleIntersection self (entry :: rest) = handleIntersection (handleEntry self entry) rest :=
  rfl

theorem intersects_cons (el : Nat) (entry : IntersectionEntry) (rest : List IntersectionEntry) :
    intersects el (entry :: rest) =
      ((entry.isIntersecting && entry.target == el) || intersects el rest) := by
  simp [intersects]

theorem intersects_append (el : Nat) (first rest : List IntersectionEntry) :
    intersects el (first ++ rest) = (intersects el first || intersects el rest) := by
  simp [intersects]

theorem classListAdd_idem (classList : List String) (token : String) :
    classListAdd (classListAdd classList token) token = classListAdd classList token := by
  unfold classListAdd
  split_ifs <;> simp_all

theorem mem_classListAdd (classList : List String) (token : String) :
    token ∈ classListAdd classList token := by
  unfold classListAdd
  split_ifs with h
  · exact h
  · simp

theorem classListAdd_of_mem (classList : List String) (token : String)
    (h : token ∈ classList) : classListAdd classList token = classList := by
  simp [classListAdd, h]

/-- The class list of an element after one entry. -/
theorem handleEntry_classList (self : ScrollAnimations) (entry : IntersectionEntry)
    (el : Nat) :
    (handleEntry self entry).classList el =
      (if (entry.isIntersecting && entry.target == el) = true then
        classListAdd (self.classList el) "animate-on-scroll"
       else self.classList el) := by
  unfold handleEntry
  cases hi : entry.isIntersecting
  · simp
  · by_cases ht : entry.target = el
    · subst ht
      simp
    · have hne : el ≠ entry.target := fun h => ht h.symm
      simp [ht, Function.update_noteq hne]

/-- The observed targets after one entry. -/
theorem handleEntry_observed (self : ScrollAnimations) (entry : IntersectionEntry)
    (el : Nat) :
    el ∈ (handleEntry self entry).observed ↔
      el ∈ self.observed ∧ (entry.isIntersecting && entry.target == el) = false := by
  unfold handleEntry
  cases hi : entry.isIntersecting
  · simp
  · simp only [if_true, List.mem_filter, decide_eq_true_eq, Bool.true_and, beq_eq_false_iff_ne,
      ne_eq]
    constructor
    · rintro ⟨h1, h2⟩
      exact ⟨h1, fun h => h2 h.symm⟩
    · rintro ⟨h1, h2⟩
      exact ⟨h1, fun h => h2 h.symm⟩

/-- The class list of an element after a call of `handleIntersection`. -/
theorem handleIntersection_classList (self : ScrollAnimations)
    (entries : List IntersectionEntry) (el : Nat) :
    (handleIntersection self entries).classList el =
      (if intersects el entries = true then
        classListAdd (self.classList el) "animate-on-scroll"
       else self.classList el) := by
  induction entries generalizing self with
  | nil => simp [handleIntersection, intersects]
  | cons entry rest ih =>
    rw [handleIntersection_cons, ih, handleEntry_classList, intersects_cons]
    by_cases h1 : (entry.isIntersecting && entry.target == el) = true <;>
      by_cases h2 : intersects el rest = true <;>
      simp [h1, h2, classListAdd_idem]

/-- The observed targets after a call of `handleIntersection`. -/
theorem handleIntersection_observed (self : ScrollAnimations)
    (entries : List IntersectionEntry) (el : Nat) :
    el ∈ (handleIntersection self entries).observed ↔
      el ∈ self.observed ∧ intersects el entries = false := by
  induction entries generalizing self with
  | nil => simp [handleIntersection, intersects]
  | cons entry rest ih =>
    rw [handleIntersection_cons, ih, handleEntry_observed, intersects_cons,
      Bool.or_eq_false_iff]
    tauto

theorem handleIntersection_not_intersecting (self : ScrollAnimations)
    (entries : List IntersectionEntry)
    (h : ∀ entry ∈ entries, entry.isIntersecting = false) :
    handleIntersection self entries = self := by
  induction entries generalizing self with
  | nil => rfl
  | cons entry rest ih =>
    have hentry : handleEntry self entry = self := by
      unfold handleEntry
      simp [h entry (List.mem_cons_self _ _)]
    rw [handleIntersection_cons, hentry]
    exact ih self (fun e he => h e (List.mem_cons_of_mem _ he))

/-- The number of entries that add the marker to an element: one when the
element lacked it and some entry for it is intersecting, none otherwise. -/
theorem markerAdditions_eq (el : Nat) (self : ScrollAnimations)
    (entries : List IntersectionEntry) :
    markerAdditions el self entries =
      (if "animate-on-scroll" ∉ self.classList el ∧ intersects el entries = true then 1
       else 0) := by
  induction entries generalizing self with
  | nil => simp [markerAdditions, intersects]
  | cons entry rest ih =>
    unfold markerAdditions
    rw [ih]
    simp only [addsMarker, handleIntersection_singleton, handleEntry_classList, intersects_cons]
    by_cases hm : "animate-on-scroll" ∈ self.classList el <;>
      by_cases h1 : (entry.isIntersecting && entry.target == el) = true <;>
      by_cases h2 : intersects el rest = true <;>
      simp [hm, h1, h2, mem_classListAdd, classListAdd_of_mem]

theorem handleEntry_count (self : ScrollAnimations) (entry : IntersectionEntry) (el : Nat)
    (h : (self.classList el).count "animate-on-scroll" ≤ 1) :
    ((handleEntry self entry).classList el).count "animate-on-scroll" ≤ 1 := by
  rw [handleEntry_classList]
  split_ifs
  · by_cases hmem : "animate-on-scroll" ∈ self.classList el
    · rw [classListAdd_of_mem _ _ hmem]
      exact h
    · simp [classListAdd, hmem, List.count_eq_zero.mpr hmem]
  · exact h

theorem handleIntersection_count (self : ScrollAnimations) (entries : List IntersectionEntry)
    (el : Nat) (h : (self.classList el).count "animate-on-scroll" ≤ 1) :
    ((handleIntersection self entries).classList el).count "animate-on-scroll" ≤ 1 := by
  induction entries generalizing self with
  | nil => exact h
  | cons entry rest ih => exact ih (handleEntry self entry) (handleEntry_count self entry el h)

/-- C12: a call of `handleIntersection` with a batch adds the marker
`animate-on-scroll` to an element exactly when the batch holds an intersecting
entry for it, once however many such entries there are, and removes exactly
those elements from the observed targets; the same holds of any sequence of
batches, over which at most one entry adds the marker to a given element and
the class list never holds it twice. The first intersecting entry for an
element adds the marker and unobserves it, and no later batch changes its class
list or observes it again; entries that are not intersecting change nothing. -/
theorem marker_added_at_most_once :
    (∀ (self : ScrollAnimations) (entries : List IntersectionEntry) (el : Nat),
      (handleIntersection self entries).classList el =
        (if intersects el entries = true then
          classListAdd (self.classList el) "animate-on-scroll"
         else self.classList el) ∧
      (el ∈ (handleIntersection self entries).observed ↔
        el ∈ self.observed ∧ intersects el entries = false)) ∧
    (∀ (self : ScrollAnimations) (batches : List (List IntersectionEntry)) (el : Nat),
      (deliver self batches).classList el =
        (if intersects el batches.flatten = true then
          classListAdd (self.classList el) "animate-on-scroll"
         else self.classList el) ∧
      (el ∈ (deliver self batches).observed ↔
        el ∈ self.observed ∧ intersects el batches.flatten = false) ∧
      markerAdditions el self batches.flatten =
        (if "animate-on-scroll" ∉ self.classList el ∧ intersects el batches.flatten = true
          then 1 else 0) ∧
      markerAdditions el self batches.flatten ≤ 1 ∧
      ((self.classList el).count "animate-on-scroll" ≤ 1 →
        ((deliver self batches).classList el).count "animate-on-scroll" ≤ 1)) ∧
    (∀ (self : ScrollAnimations) (before : List IntersectionEntry) (entry : IntersectionEntry)
      (later : List (List IntersectionEntry)) (el : Nat),
      intersects el before = false → entry.isIntersecting = true → entry.target = el →
      (handleIntersection self before).classList el = self.classList el ∧
      "animate-on-scroll" ∈ (handleIntersection self (before ++ [entry])).classList el ∧
      el ∉ (handleIntersection self (before ++ [entry])).observed ∧
      (deliver (handleIntersection self (before ++ [entry])) later).classList el =
        (handleIntersection self (before ++ [entry])).classList el ∧
      el ∉ (deliver (handleIntersection self (before ++ [entry])) later).observed) ∧
    (∀ (self : ScrollAnimations) (entries : List IntersectionEntry),
      (∀ entry ∈ entries, entry.isIntersecting = false) →
      handleIntersection self entries = self) := by
  refine ⟨?_, ?_, ?_, ?_⟩
  · intro self entries el
    exact ⟨handleIntersection_classList self entries el,
      handleIntersection_observed self entries el⟩
  · intro self batches el
    rw [deliver_eq_flatten]
    refine ⟨handleIntersection_classList self _ el, handleIntersection_observed self _ el,
      markerAdditions_eq el self _, ?_, handleIntersection_count self _ el⟩
    rw [markerAdditions_eq]
    split_ifs <;> simp
  · intro self before entry later el hbefore hinter htarget
    have hhit : intersects el (before ++ [entry]) = true := by
      rw [intersects_append, intersects_cons]
      simp [hinter, htarget]
    have hmem : "animate-on-scroll" ∈
        (handleIntersection self (before ++ [entry])).classList el := by
      rw [handleIntersection_classList, if_pos hhit]
      exact mem_classListAdd _ _
    have hobs : el ∉ (handleIntersection self (before ++ [entry])).observed := by
      rw [handleIntersection_observed]
      simp [hhit]
    refine ⟨?_, hmem, hobs, ?_, ?_⟩
    · rw [handleIntersection_classList]
      simp [hbefore]
    · rw [deliver_eq_flatten, handleIntersection_classList]
      split_ifs
      · exact classListAdd_of_mem _ _ hmem
      · rfl
    · rw [deliver_eq_flatten, handleIntersection_observed]
      exact fun h => hobs h.1
  · intro self entries h
    exact handleIntersection_not_intersecting self entries h

theorem marker_added_at_most_once_witness :
    (handleIntersection sampleScrollAnimations repeatedBatch).classList 1 =
      ["project__card", "animate-on-scroll"] ∧
    1 ∉ (handleIntersection sampleScrollAnimations repeatedBatch).observed :=
  have h := marker_added_at_most_once.1 sampleScrollAnimations repeatedBatch 1
  ⟨h.1.trans (by decide), fun hmem => absurd (h.2.mp hmem).2 (by decide)⟩

/-! ## Smooth scroll: proofs -/

/-- Without an element matching `.nav`, a click on a link whose target exists
throws after the default was prevented, and nothing is scrolled. -/
theorem clickListener_without_nav (href : JSString) (e : ClickEvent) (doc : ScrollDocument)
    (target : LayoutBox) (htarget : doc.getElementById (href.drop 1) = some target)
    (hnav : doc.nav = none) :
    SmoothScroll.clickListener href e doc =
      (Except.error (JSError.typeError "document.querySelector('.nav') is null"),
        { e with defaultPrevented := true }, doc) := by
  unfold SmoothScroll.clickListener
  simp only [htarget, hnav]

/-- What the click listener does where it does not throw: it prevents the
default action; when `id` resolves to an element and `nav` is the element
matching `.nav`, it returns normally after exactly one call of `scrollTo`, with
`top = target.offsetTop - nav.offsetHeight - 20` and smooth behaviour; when
`id` does not resolve it returns normally and scrolls nothing. -/
theorem smoothScroll_click :
    (∀ (href : JSString) (e : ClickEvent) (doc : ScrollDocument),
      (SmoothScroll.clickListener href e doc).2.1.defaultPrevented = true) ∧
    (∀ (id : JSString) (e : ClickEvent) (doc : ScrollDocument) (target nav : LayoutBox),
      doc.getElementById id = some target → doc.nav = some nav →
      SmoothScroll.clickListener (35 :: id) e doc =
        (Except.ok (), { e with defaultPrevented := true },
          { doc with
            scrollCalls :=
              doc.scrollCalls ++
                [{ top := target.offsetTop - nav.offsetHeight - 20, behavior := "smooth" }] })) ∧
    (∀ (id : JSString) (e : ClickEvent) (doc : ScrollDocument),
      doc.getElementById id = none →
      SmoothScroll.clickListener (35 :: id) e doc =
        (Except.ok (), { e with defaultPrevented := true }, doc)) := by
  refine ⟨?_, ?_, ?_⟩
  · intro href e doc
    unfold SmoothScroll.clickListener
    dsimp only
    split
    · split <;> rfl
    · rfl
  · intro id e doc target nav htarget hnav
    unfold SmoothScroll.clickListener
    simp only [List.drop_succ_cons, List.drop_zero, htarget, hnav]
  · intro id e doc htarget
    unfold SmoothScroll.clickListener
    simp only [List.drop_succ_cons, List.drop_zero, htarget]

theorem smoothScroll_click_witness :
    SmoothScroll.clickListener (35 :: js "about") { defaultPrevented := false }
        sampleScrollDocument =
      (Except.ok (), { defaultPrevented := true },
        { sampleScrollDocument with scrollCalls := [{ top := 816, behavior := "smooth" }] }) :=
  smoothScroll_click.2.1 (js "about") { defaultPrevented := false } sampleScrollDocument
    { offsetTop := 900, offsetHeight := 400 } { offsetTop := 0, offsetHeight := 64 } rfl rfl

/-- C13 fails on the code: on a document where the id `about` resolves to an
element and no element matches `.nav`, a click on the link `#about` prevents
the default action and then throws, and `scrollTo` is not called. -/
theorem click_without_nav_throws :
    scrollDocumentWithoutNav.getElementById (js "about") =
      some { offsetTop := 900, offsetHeight := 400 } ∧
    scrollDocumentWithoutNav.nav = none ∧
    SmoothScroll.clickListener (35 :: js "about") { defaultPrevented := false }
        scrollDocumentWithoutNav =
      (Except.error (JSError.typeError "document.querySelector('.nav') is null"),
        { defaultPrevented := true }, scrollDocumentWithoutNav) ∧
    (SmoothScroll.clickListener (35 :: js "about") { defaultPrevented := false }
      scrollDocumentWithoutNav).2.2.scrollCalls = [] :=
  ⟨rfl, rfl, rfl, rfl⟩

end Portfolio
